import Mathlib

/-!
Verification of the BRET (Bomb Risk Elicitation Task) trial engine from
`src/app.py`.  The Streamlit session state is embedded as a `GameState`
structure; the ambient sources of nondeterminism (`random.randint` for the
bomb draw, `datetime.now` for the run id) are injected as explicit
parameters.  Each operation of the app — `_reset_game`, the open-next
button handler, the stop button handler with `_compute_payoff`, the status
line, `_cell_label`, and the export record — is translated directly from
the source.
-/

namespace BRET

/-- The `outcome` field of the session state: `"safe"` or `"bombed"`
(`None` before reveal is modelled by `Option`). -/
inductive Outcome
  | safe
  | bombed
deriving DecidableEq, Repr

/-- The Streamlit `st.session_state` fields used by the app
(`n`, `cols`, `payoff_per_box`, `bomb_idx`, `opened`, `revealed`,
`payoff`, `outcome`, `run_id`). -/
structure GameState where
  n : Nat
  cols : Nat
  payoff_per_box : Nat
  bomb_idx : Nat
  opened : Nat
  revealed : Bool
  payoff : Option Nat
  outcome : Option Outcome
  run_id : String
deriving DecidableEq, Repr

/-- `DEFAULT_N = 100` from the source. -/
def DEFAULT_N : Nat := 100

/-- `DEFAULT_COLS = 10` from the source. -/
def DEFAULT_COLS : Nat := 10

/-- `DEFAULT_PAYOFF_PER_BOX = 10` from the source. -/
def DEFAULT_PAYOFF_PER_BOX : Nat := 10

/-- Model of Python `random.randint(lo, hi)`: a uniform draw in
`[lo, hi]`, given an ambient random value `r`. -/
def randint (lo hi r : Nat) : Nat := lo + r % (hi + 1 - lo)

/-- `_reset_game(n_boxes)` from the source.  `prev` is the previous
session state (`none` when `st.session_state` was never initialised, so
`st.session_state.get("payoff_per_box", DEFAULT_PAYOFF_PER_BOX)` falls
back to the default); `r` stands for the ambient randomness consumed by
`random.randint(1, n_boxes)` and `rid` for the timestamp produced by
`datetime.now().strftime(...)`. -/
def _reset_game (prev : Option GameState) (n_boxes : Nat) (r : Nat)
    (rid : String) : GameState :=
  { n := n_boxes
    cols := DEFAULT_COLS
    payoff_per_box := (prev.map GameState.payoff_per_box).getD DEFAULT_PAYOFF_PER_BOX
    bomb_idx := randint 1 n_boxes r
    opened := 0
    revealed := false
    payoff := none
    outcome := none
    run_id := rid }

/-- `_compute_payoff()` from the source: if `bomb_idx <= opened` the
outcome is bombed with payoff 0, otherwise safe with payoff
`opened * payoff_per_box`. -/
def _compute_payoff (s : GameState) : GameState :=
  if s.bomb_idx ≤ s.opened then
    { s with outcome := some Outcome.bombed, payoff := some 0 }
  else
    { s with outcome := some Outcome.safe,
             payoff := some (s.opened * s.payoff_per_box) }

/-- The "Open next box" button handler: guarded by
`disabled_open = revealed or (opened >= n)`; when enabled it performs
`opened += 1`. -/
def openNext (s : GameState) : GameState :=
  if s.revealed ∨ s.n ≤ s.opened then s
  else { s with opened := s.opened + 1 }

/-- The "Stop & Reveal" button handler: guarded by
`disabled_stop = revealed or (opened == 0)`; when enabled it runs
`_compute_payoff()` and then sets `revealed = True`. -/
def stop (s : GameState) : GameState :=
  if s.revealed ∨ s.opened = 0 then s
  else { _compute_payoff s with revealed := true }

/-- Python `f"{x}"` applied to an `Option Nat` field (`None` prints as
`None`, an int as its decimal digits). -/
def pyStrOptNat : Option Nat → String
  | none => "None"
  | some k => toString k

/-- The status line shown by `st.subheader`: before reveal the
opened/total counter, after reveal the bomb position and payoff. -/
def statusLine (s : GameState) : String :=
  if s.revealed then
    if s.outcome = some Outcome.bombed then
      "💥 Bomb was in box **" ++ toString s.bomb_idx ++ "** → **Payoff: 0**"
    else
      "✅ Safe! Bomb was in box **" ++ toString s.bomb_idx ++ "** → **Payoff: "
        ++ pyStrOptNat s.payoff ++ "** (" ++ toString s.opened ++ " × "
        ++ toString s.payoff_per_box ++ ")"
  else
    "Boxes opened: **" ++ toString s.opened ++ " / " ++ toString s.n ++ "**"

/-- `_cell_label(i)` from the source (`i` is a 1-based box index). -/
def _cell_label (s : GameState) (i : Nat) : String :=
  if s.revealed then
    if i = s.bomb_idx then "💣"
    else if i ≤ s.opened ∧ i ≠ s.bomb_idx then "🟩"
    else "◻️"
  else
    if i ≤ s.opened then "🟩"
    else "◻️"

/-- The dictionary written under "Session details / export".  Fields that
Python renders as either an int or a sentinel string are modelled as sums
(`Sum.inl` the real value, `Sum.inr` the sentinel). -/
structure ExportRecord where
  run_id : String
  n_boxes : Nat
  opened : Nat
  bomb_index : Sum Nat String
  payoff_per_box : Nat
  outcome : Sum (Option Outcome) String
  payoff : Sum (Option Nat) String
deriving DecidableEq, Repr

/-- The export record built at lines 159–170 of the source. -/
def exportRecord (s : GameState) : ExportRecord :=
  { run_id := s.run_id
    n_boxes := s.n
    opened := s.opened
    bomb_index := if s.revealed then Sum.inl s.bomb_idx
                  else Sum.inr "(hidden until reveal)"
    payoff_per_box := s.payoff_per_box
    outcome := if s.revealed then Sum.inl s.outcome
               else Sum.inr "(not revealed)"
    payoff := if s.revealed then Sum.inl s.payoff
              else Sum.inr "(not revealed)" }

/-- The per-cell labelling rule exactly as §6 of the spec words it, over
the RenderView fields plus the 1-based index `i`: if not revealed →
"opened" (🟩) when `i ≤ openedCount` else "closed" (◻️); if revealed →
"bomb" (💣) when `i == bombIndex`, "opened-safe" (🟩) when
`i ≤ openedCount` and `i ≠ bombIndex`, else "closed" (◻️). -/
def cellLabelSpec (revealed : Bool) (opened bomb_idx i : Nat) : String :=
  if revealed then
    if i = bomb_idx then "💣"
    else if i ≤ opened ∧ i ≠ bomb_idx then "🟩"
    else "◻️"
  else
    if i ≤ opened then "🟩"
    else "◻️"

/-- The two in-session actions a participant can dispatch. -/
inductive Act
  | openNext
  | stop
deriving DecidableEq, Repr

/-- Dispatch one action. -/
def applyAct : Act → GameState → GameState
  | Act.openNext, s => openNext s
  | Act.stop, s => stop s

/-- Run a sequence of actions from left to right. -/
def runActs : List Act → GameState → GameState
  | [], s => s
  | a :: rest, s => runActs rest (applyAct a s)

/-- A concrete mid-session state used by the witnesses: 10 boxes,
payoff 10 per box, bomb in box 5, 4 boxes opened, not yet revealed. -/
def sampleState : GameState :=
  { n := 10
    cols := 10
    payoff_per_box := 10
    bomb_idx := 5
    opened := 4
    revealed := false
    payoff := none
    outcome := none
    run_id := "20260101-000000" }

/-- A concrete revealed (terminal) state used by the witnesses. -/
def sampleRevealed : GameState :=
  { n := 10
    cols := 10
    payoff_per_box := 10
    bomb_idx := 5
    opened := 4
    revealed := true
    payoff := some 40
    outcome := some Outcome.safe
    run_id := "20260101-000000" }

/-! ### Projection lemmas for the individual operations -/

@[simp] theorem compute_payoff_n (s : GameState) : (_compute_payoff s).n = s.n := by
  rw [_compute_payoff]; split <;> rfl

@[simp] theorem compute_payoff_cols (s : GameState) : (_compute_payoff s).cols = s.cols := by
  rw [_compute_payoff]; split <;> rfl

@[simp] theorem compute_payoff_ppb (s : GameState) :
    (_compute_payoff s).payoff_per_box = s.payoff_per_box := by
  rw [_compute_payoff]; split <;> rfl

@[simp] theorem compute_payoff_bomb (s : GameState) :
    (_compute_payoff s).bomb_idx = s.bomb_idx := by
  rw [_compute_payoff]; split <;> rfl

@[simp] theorem compute_payoff_opened (s : GameState) :
    (_compute_payoff s).opened = s.opened := by
  rw [_compute_payoff]; split <;> rfl

@[simp] theorem compute_payoff_revealed (s : GameState) :
    (_compute_payoff s).revealed = s.revealed := by
  rw [_compute_payoff]; split <;> rfl

@[simp] theorem openNext_n (s : GameState) : (openNext s).n = s.n := by
  rw [openNext]; split <;> rfl

@[simp] theorem openNext_cols (s : GameState) : (openNext s).cols = s.cols := by
  rw [openNext]; split <;> rfl

@[simp] theorem openNext_ppb (s : GameState) :
    (openNext s).payoff_per_box = s.payoff_per_box := by
  rw [openNext]; split <;> rfl

@[simp] theorem openNext_bomb (s : GameState) : (openNext s).bomb_idx = s.bomb_idx := by
  rw [openNext]; split <;> rfl

@[simp] theorem openNext_revealed (s : GameState) : (openNext s).revealed = s.revealed := by
  rw [openNext]; split <;> rfl

@[simp] theorem stop_n (s : GameState) : (stop s).n = s.n := by
  rw [stop]; split
  · rfl
  · show (_compute_payoff s).n = s.n; simp

@[simp] theorem stop_cols (s : GameState) : (stop s).cols = s.cols := by
  rw [stop]; split
  · rfl
  · show (_compute_payoff s).cols = s.cols; simp

@[simp] theorem stop_ppb (s : GameState) : (stop s).payoff_per_box = s.payoff_per_box := by
  rw [stop]; split
  · rfl
  · show (_compute_payoff s).payoff_per_box = s.payoff_per_box; simp

@[simp] theorem stop_bomb (s : GameState) : (stop s).bomb_idx = s.bomb_idx := by
  rw [stop]; split
  · rfl
  · show (_compute_payoff s).bomb_idx = s.bomb_idx; simp

@[simp] theorem stop_opened (s : GameState) : (stop s).opened = s.opened := by
  rw [stop]; split
  · rfl
  · show (_compute_payoff s).opened = s.opened; simp

theorem openNext_opened_mono (s : GameState) : s.opened ≤ (openNext s).opened := by
  rw [openNext]; split
  · exact Nat.le_refl _
  · exact Nat.le_succ _

theorem openNext_opened_le (s : GameState) (h : s.opened ≤ s.n) :
    (openNext s).opened ≤ s.n := by
  rw [openNext]; split
  · exact h
  · next hguard =>
    have : s.opened < s.n := by
      rcases Nat.lt_or_ge s.opened s.n with h' | h'
      · exact h'
      · exact absurd (Or.inr h') hguard
    exact this

theorem applyAct_opened_mono (a : Act) (s : GameState) :
    s.opened ≤ (applyAct a s).opened := by
  cases a
  · exact openNext_opened_mono s
  · show s.opened ≤ (stop s).opened; simp

theorem applyAct_opened_le (a : Act) (s : GameState) (h : s.opened ≤ s.n) :
    (applyAct a s).opened ≤ s.n := by
  cases a
  · exact openNext_opened_le s h
  · show (stop s).opened ≤ s.n; simpa using h

theorem applyAct_config (a : Act) (s : GameState) :
    (applyAct a s).n = s.n ∧ (applyAct a s).cols = s.cols ∧
    (applyAct a s).payoff_per_box = s.payoff_per_box := by
  cases a <;> exact ⟨by simp [applyAct], by simp [applyAct], by simp [applyAct]⟩

theorem runActs_config (acts : List Act) (s : GameState) :
    (runActs acts s).n = s.n ∧ (runActs acts s).cols = s.cols ∧
    (runActs acts s).payoff_per_box = s.payoff_per_box := by
  induction acts generalizing s with
  | nil => exact ⟨rfl, rfl, rfl⟩
  | cons a rest ih =>
    have h1 := applyAct_config a s
    have h2 := ih (applyAct a s)
    exact ⟨h2.1.trans h1.1, h2.2.1.trans h1.2.1, h2.2.2.trans h1.2.2⟩

theorem runActs_opened_mono (acts : List Act) (s : GameState) :
    s.opened ≤ (runActs acts s).opened := by
  induction acts generalizing s with
  | nil => exact Nat.le_refl _
  | cons a rest ih =>
    exact Nat.le_trans (applyAct_opened_mono a s) (ih (applyAct a s))

theorem runActs_opened_le (acts : List Act) (s : GameState) (h : s.opened ≤ s.n) :
    (runActs acts s).opened ≤ s.n := by
  induction acts generalizing s with
  | nil => exact h
  | cons a rest ih =>
    have h1 : (applyAct a s).opened ≤ (applyAct a s).n := by
      rw [(applyAct_config a s).1]; exact applyAct_opened_le a s h
    have := ih (applyAct a s) h1
    rwa [(applyAct_config a s).1] at this

/-- On an unrevealed state with at least one box opened, the stop guard
is disabled and the handler runs `_compute_payoff` and sets
`revealed = True`. -/
theorem stop_run (s : GameState) (hrev : s.revealed = false)
    (hop : s.opened ≠ 0) :
    stop s = { _compute_payoff s with revealed := true } := by
  rw [stop, if_neg]
  intro hc
  rcases hc with hc | hc
  · rw [hrev] at hc; exact Bool.false_ne_true hc
  · exact hop hc

/-- When the bomb lies among the opened boxes, stopping yields outcome
bombed and payoff 0. -/
theorem stop_bombed_case (s : GameState) (hrev : s.revealed = false)
    (hop : s.opened ≠ 0) (hb : s.bomb_idx ≤ s.opened) :
    (stop s).outcome = some Outcome.bombed ∧ (stop s).payoff = some 0 := by
  rw [stop_run s hrev hop, _compute_payoff, if_pos hb]
  exact ⟨rfl, rfl⟩

/-- When the bomb lies beyond the opened boxes, stopping yields outcome
safe and payoff `opened * payoff_per_box`. -/
theorem stop_safe_case (s : GameState) (hrev : s.revealed = false)
    (hop : s.opened ≠ 0) (hb : s.opened < s.bomb_idx) :
    (stop s).outcome = some Outcome.safe ∧
    (stop s).payoff = some (s.opened * s.payoff_per_box) := by
  rw [stop_run s hrev hop, _compute_payoff,
    if_neg (by omega : ¬ s.bomb_idx ≤ s.opened)]
  exact ⟨rfl, rfl⟩

/-! ### Claim theorems -/

/-- C1: After a stop performed with `revealed == false` and
`openedCount ≥ 1`, for every prior `openedCount` and `bombIndex`:
`bombIndex ≤ openedCount` yields outcome bombed and payoff 0, while
`bombIndex > openedCount` yields outcome safe and payoff
`openedCount * payoffPerBox`. -/
theorem c1_stop_outcome_payoff (s : GameState) (hrev : s.revealed = false)
    (hop : 1 ≤ s.opened) :
    (s.bomb_idx ≤ s.opened →
      (stop s).outcome = some Outcome.bombed ∧ (stop s).payoff = some 0) ∧
    (s.opened < s.bomb_idx →
      (stop s).outcome = some Outcome.safe ∧
      (stop s).payoff = some (s.opened * s.payoff_per_box)) :=
  ⟨fun hb => stop_bombed_case s hrev (by omega) hb,
   fun hb => stop_safe_case s hrev (by omega) hb⟩

theorem c1_stop_outcome_payoff_witness :
    sampleState.revealed = false ∧ 1 ≤ sampleState.opened ∧
    ((sampleState.bomb_idx ≤ sampleState.opened →
      (stop sampleState).outcome = some Outcome.bombed ∧
      (stop sampleState).payoff = some 0) ∧
     (sampleState.opened < sampleState.bomb_idx →
      (stop sampleState).outcome = some Outcome.safe ∧
      (stop sampleState).payoff =
        some (sampleState.opened * sampleState.payoff_per_box))) :=
  ⟨rfl, by decide, c1_stop_outcome_payoff sampleState rfl (by decide)⟩

/-- C2: While `revealed == false`, no query output (status line, per-cell
label, export record) depends on or exposes `bombIndex`, `outcome`, or
the real `payoff`: every pre-reveal projection is invariant under
arbitrary values of those three hidden fields. -/
theorem c2_prereveal_noninterference (s : GameState) (b : Nat)
    (oc : Option Outcome) (p : Option Nat) (i : Nat)
    (hrev : s.revealed = false) :
    statusLine { s with bomb_idx := b, outcome := oc, payoff := p } = statusLine s ∧
    _cell_label { s with bomb_idx := b, outcome := oc, payoff := p } i =
      _cell_label s i ∧
    exportRecord { s with bomb_idx := b, outcome := oc, payoff := p } =
      exportRecord s := by
  refine ⟨?_, ?_, ?_⟩ <;>
    simp [statusLine, _cell_label, exportRecord, hrev]

/-- `sampleState` with different values planted in the three hidden
fields, used by the C2 witness. -/
def sampleStateAltHidden : GameState :=
  { sampleState with
    bomb_idx := 9,
    outcome := some Outcome.bombed,
    payoff := some 0 }

theorem c2_prereveal_noninterference_witness :
    sampleState.revealed = false ∧
    (statusLine sampleStateAltHidden = statusLine sampleState ∧
     _cell_label sampleStateAltHidden 3 = _cell_label sampleState 3 ∧
     exportRecord sampleStateAltHidden = exportRecord sampleState) :=
  ⟨rfl, c2_prereveal_noninterference sampleState 9 (some Outcome.bombed)
    (some 0) 3 rfl⟩

/-- C3: Once `revealed == true` the state is terminal: `openNext` and
`stop` are exact no-ops, so no transition leaves the Revealed state. -/
theorem c3_terminal_state (s : GameState) (hrev : s.revealed = true) :
    openNext s = s ∧ stop s = s := by
  constructor
  · rw [openNext, if_pos (Or.inl hrev)]
  · rw [stop, if_pos (Or.inl hrev)]

theorem c3_terminal_state_witness :
    sampleRevealed.revealed = true ∧
    (openNext sampleRevealed = sampleRevealed ∧
     stop sampleRevealed = sampleRevealed) :=
  ⟨rfl, c3_terminal_state sampleRevealed rfl⟩

/-- C4: Between one reset and the next, no sequence of `openNext`/`stop`
operations — including sequences containing a successful stop — changes
`boxCount`, `gridColumns`, or `payoffPerBox`; and whenever a stop can
still fire (unrevealed, at least one box opened) and the bomb lies
beyond the opened boxes, the payoff it computes uses the `payoffPerBox`
fixed at session start. -/
theorem c4_config_immutable (prev : Option GameState) (nb r : Nat)
    (rid : String) (acts : List Act) :
    (runActs acts (_reset_game prev nb r rid)).n =
      (_reset_game prev nb r rid).n ∧
    (runActs acts (_reset_game prev nb r rid)).cols =
      (_reset_game prev nb r rid).cols ∧
    (runActs acts (_reset_game prev nb r rid)).payoff_per_box =
      (_reset_game prev nb r rid).payoff_per_box ∧
    ((runActs acts (_reset_game prev nb r rid)).revealed = false →
     1 ≤ (runActs acts (_reset_game prev nb r rid)).opened →
     (runActs acts (_reset_game prev nb r rid)).opened <
       (runActs acts (_reset_game prev nb r rid)).bomb_idx →
     (stop (runActs acts (_reset_game prev nb r rid))).payoff =
       some ((runActs acts (_reset_game prev nb r rid)).opened *
         (_reset_game prev nb r rid).payoff_per_box)) := by
  obtain ⟨h1, h2, h3⟩ := runActs_config acts (_reset_game prev nb r rid)
  refine ⟨h1, h2, h3, ?_⟩
  intro hrev hop hsafe
  rw [← h3]
  exact (stop_safe_case _ hrev (by omega) hsafe).2

/-- The state produced by `_reset_game` on a fresh session with 10 boxes
and random draw 4 (so the bomb is in box 5). -/
def resetSample : GameState := _reset_game none 10 4 "20260101-000000"

/-- `resetSample` after one `openNext`. -/
def runSample : GameState := runActs [Act.openNext] resetSample

theorem c4_config_immutable_witness :
    runSample.n = resetSample.n ∧
    runSample.cols = resetSample.cols ∧
    runSample.payoff_per_box = resetSample.payoff_per_box ∧
    (runSample.revealed = false → 1 ≤ runSample.opened →
     runSample.opened < runSample.bomb_idx →
     (stop runSample).payoff =
       some (runSample.opened * resetSample.payoff_per_box)) :=
  c4_config_immutable none 10 4 "20260101-000000" [Act.openNext]

/-- C5: For every structurally valid config (`boxCount ≥ 10`), reset
always succeeds and yields `1 ≤ bombIndex ≤ boxCount`,
`openedCount == 0`, `revealed == false`, `outcome` unrevealed (`none`)
and `payoff` `none`. -/
theorem c5_reset_valid (prev : Option GameState) (nb r : Nat) (rid : String)
    (hn : 10 ≤ nb) :
    1 ≤ (_reset_game prev nb r rid).bomb_idx ∧
    (_reset_game prev nb r rid).bomb_idx ≤ nb ∧
    (_reset_game prev nb r rid).opened = 0 ∧
    (_reset_game prev nb r rid).revealed = false ∧
    (_reset_game prev nb r rid).outcome = none ∧
    (_reset_game prev nb r rid).payoff = none := by
  refine ⟨?_, ?_, rfl, rfl, rfl, rfl⟩
  · show 1 ≤ randint 1 nb r
    rw [randint]
    exact Nat.le_add_right 1 _
  · show randint 1 nb r ≤ nb
    rw [randint]
    have h1 : nb + 1 - 1 = nb := by omega
    rw [h1]
    have h2 : r % nb < nb := Nat.mod_lt r (by omega)
    omega

theorem c5_reset_valid_witness :
    (10 : Nat) ≤ 10 ∧
    (1 ≤ (_reset_game none 10 4 "20260101-000000").bomb_idx ∧
     (_reset_game none 10 4 "20260101-000000").bomb_idx ≤ 10 ∧
     (_reset_game none 10 4 "20260101-000000").opened = 0 ∧
     (_reset_game none 10 4 "20260101-000000").revealed = false ∧
     (_reset_game none 10 4 "20260101-000000").outcome = none ∧
     (_reset_game none 10 4 "20260101-000000").payoff = none) :=
  ⟨by decide, c5_reset_valid none 10 4 "20260101-000000" (by decide)⟩

/-- C6: A successful `openNext` (unrevealed, `openedCount < boxCount`)
increases `openedCount` by exactly 1; over any action sequence
`openedCount` never exceeds `boxCount` and never decreases; and
`openedCount` does not change while `revealed == true`. -/
theorem c6_opened_count (s : GameState) (acts : List Act)
    (hn : s.opened ≤ s.n) :
    (s.revealed = false → s.opened < s.n →
      (openNext s).opened = s.opened + 1) ∧
    (runActs acts s).opened ≤ s.n ∧
    s.opened ≤ (runActs acts s).opened ∧
    (s.revealed = true → (openNext s).opened = s.opened) := by
  refine ⟨?_, runActs_opened_le acts s hn, runActs_opened_mono acts s, ?_⟩
  · intro h1 h2
    have hguard : ¬ (s.revealed = true ∨ s.n ≤ s.opened) := by
      rw [h1]; simp; omega
    rw [openNext, if_neg hguard]
  · intro h1
    rw [openNext, if_pos (Or.inl h1)]

theorem c6_opened_count_witness :
    sampleState.opened ≤ sampleState.n ∧
    ((sampleState.revealed = false → sampleState.opened < sampleState.n →
      (openNext sampleState).opened = sampleState.opened + 1) ∧
     (runActs [Act.openNext, Act.stop] sampleState).opened ≤ sampleState.n ∧
     sampleState.opened ≤ (runActs [Act.openNext, Act.stop] sampleState).opened ∧
     (sampleState.revealed = true →
      (openNext sampleState).opened = sampleState.opened)) :=
  ⟨by decide, c6_opened_count sampleState [Act.openNext, Act.stop] (by decide)⟩

/-- C7: A stop attempted while `openedCount == 0` is rejected and leaves
the entire state unchanged. -/
theorem c7_stop_rejected_at_zero (s : GameState) (h : s.opened = 0) :
    stop s = s := by
  rw [stop, if_pos (Or.inr h)]

theorem c7_stop_rejected_at_zero_witness :
    resetSample.opened = 0 ∧ stop resetSample = resetSample :=
  ⟨rfl, c7_stop_rejected_at_zero resetSample rfl⟩

/-- C8: For every box index `i`, `_cell_label` agrees with the labelling
rule worded in the spec, and it is a pure function of the RenderView
fields (`revealed`, `openedCount`, `bombIndex`) plus `i`. -/
theorem c8_cell_label_spec (s : GameState) (i : Nat) :
    _cell_label s i = cellLabelSpec s.revealed s.opened s.bomb_idx i := rfl

/-- C9: `_reset_game` takes only the box count from its argument; it
carries `payoff_per_box` over from the previous session (default 10 when
it was never set), resets `cols` to the default 10 regardless of its
previous value, and assigns the freshly generated run id. -/
theorem c9_reset_frame (prev : Option GameState) (nb r : Nat) (rid : String) :
    (_reset_game prev nb r rid).n = nb ∧
    (_reset_game prev nb r rid).cols = 10 ∧
    (_reset_game prev nb r rid).payoff_per_box =
      (match prev with
       | some p => p.payoff_per_box
       | none => 10) ∧
    (_reset_game prev nb r rid).run_id = rid := by
  refine ⟨rfl, rfl, ?_, rfl⟩
  cases prev <;> rfl

/-- C10: A stop yielding outcome safe pays out strictly positively and at
least `payoffPerBox`, given `openedCount ≥ 1` and `payoffPerBox ≥ 1`. -/
theorem c10_safe_payoff_positive (s : GameState) (hrev : s.revealed = false)
    (hop : 1 ≤ s.opened) (hppb : 1 ≤ s.payoff_per_box)
    (hsafe : (stop s).outcome = some Outcome.safe) :
    (stop s).payoff = some (s.opened * s.payoff_per_box) ∧
    s.payoff_per_box ≤ s.opened * s.payoff_per_box ∧
    0 < s.opened * s.payoff_per_box := by
  rcases Nat.lt_or_ge s.opened s.bomb_idx with hb | hb
  · refine ⟨(stop_safe_case s hrev (by omega) hb).2, ?_, ?_⟩
    · calc s.payoff_per_box = 1 * s.payoff_per_box := (Nat.one_mul _).symm
        _ ≤ s.opened * s.payoff_per_box := Nat.mul_le_mul_right _ hop
    · exact Nat.mul_pos (by omega) (by omega)
  · obtain ⟨ho, _⟩ := stop_bombed_case s hrev (by omega) hb
    rw [ho] at hsafe
    simp at hsafe

theorem c10_safe_payoff_positive_witness :
    sampleState.revealed = false ∧ 1 ≤ sampleState.opened ∧
    1 ≤ sampleState.payoff_per_box ∧
    (stop sampleState).outcome = some Outcome.safe ∧
    ((stop sampleState).payoff =
      some (sampleState.opened * sampleState.payoff_per_box) ∧
     sampleState.payoff_per_box ≤
       sampleState.opened * sampleState.payoff_per_box ∧
     0 < sampleState.opened * sampleState.payoff_per_box) :=
  ⟨rfl, by decide, by decide, by decide,
   c10_safe_payoff_positive sampleState rfl (by decide) (by decide) (by decide)⟩

end BRET
